import Mathlib

/-!
Verification of the ERPlora bridge-native daemon core against its
natural-language specification.

The development shallowly embeds the Python sources:
  - erplora_bridge/hardware/discovery.py   (printer id grammar and parsing)
  - erplora_bridge/hardware/scanner.py     (scan detector state machine,
    under buildozer_workspace; identical role on both trees)
  - erplora_bridge/protocol.py             (event builders, parse_message)
  - erplora_bridge/server.py and server_android.py (dispatcher, broadcast,
    health probe, print handler)
  - erplora_bridge/hardware/printer.py and drawer.py (connection lifecycle)

Python strings are Lean Strings (lists of characters); Python ints are Nat
(all integers involved are non-negative); fallible code returns Option;
the nondeterministic outside world (json.loads, hardware send, executor
outcomes, clocks) enters as explicit parameters.
-/

namespace Bridge

/-! ## Python string helpers

List-of-characters models of the Python str methods used by the sources.
Each is restricted to the ASCII behaviour the repository exercises (the
sources only ever split on a colon and parse ASCII numerals).
-/

/-- Model of Python s.split(sep, 1) restricted to a one-character separator:
returns the part before the first separator and the part after it, or none
when the separator does not occur. -/
def pySplitOnceAux (sep : Char) : List Char → Option (List Char × List Char)
  | [] => none
  | c :: cs =>
    if c = sep then some ([], cs)
    else
      match pySplitOnceAux sep cs with
      | none => none
      | some (b, a) => some (c :: b, a)

/-- Model of Python s.rsplit(sep, 1): the part before the last separator and
the part after it, or none when the separator does not occur. -/
def pyRSplitOnceAux (sep : Char) : List Char → Option (List Char × List Char)
  | [] => none
  | c :: cs =>
    match pyRSplitOnceAux sep cs with
    | some (b, a) => some (c :: b, a)
    | none => if c = sep then some ([], cs) else none

/-- Model of Python s.split(sep) with a one-character separator: every
maximal separator-free run, including empty runs at the ends. -/
def pySplitAllAux (sep : Char) : List Char → List (List Char)
  | [] => [[]]
  | c :: cs =>
    if c = sep then [] :: pySplitAllAux sep cs
    else
      match pySplitAllAux sep cs with
      | h :: t => (c :: h) :: t
      | [] => [[c]]

/-! ## Decimal and hexadecimal numerals

Models of Python str(n), the f-string format spec "#06x", and int(s, 10) /
int(s, 16).  int() is modelled on the core numeral forms the repository
produces (optional 0x / 0X prefix for base 16, then digits); the sign,
whitespace and underscore forms Python also tolerates never arise here. -/

/-- Character of a decimal digit (0 ≤ d ≤ 9 in every use). -/
def decDigitChar (d : Nat) : Char := Char.ofNat (48 + d)

/-- Character of a lowercase hexadecimal digit (0 ≤ d ≤ 15 in every use),
as produced by Python's x format spec. -/
def hexDigitChar (d : Nat) : Char :=
  if d < 10 then Char.ofNat (48 + d) else Char.ofNat (87 + d)

/-- Value of a decimal digit character, if it is one. -/
def decDigitVal (c : Char) : Option Nat :=
  if 48 ≤ c.toNat ∧ c.toNat ≤ 57 then some (c.toNat - 48) else none

/-- Value of a hexadecimal digit character (either case), if it is one. -/
def hexDigitVal (c : Char) : Option Nat :=
  if 48 ≤ c.toNat ∧ c.toNat ≤ 57 then some (c.toNat - 48)
  else if 97 ≤ c.toNat ∧ c.toNat ≤ 102 then some (c.toNat - 87)
  else if 65 ≤ c.toNat ∧ c.toNat ≤ 70 then some (c.toNat - 55)
  else none

/-- Little-endian digits of n in base 10; the fuel argument (instantiated
with n itself) keeps the recursion structural. -/
def decDigitsRevAux : Nat → Nat → List Nat
  | 0, n => [n]
  | fuel + 1, n => if n < 10 then [n] else n % 10 :: decDigitsRevAux fuel (n / 10)

/-- Little-endian base-10 digits of n. -/
def decDigitsRev (n : Nat) : List Nat := decDigitsRevAux n n

/-- Little-endian digits of n in base 16, fueled as above. -/
def hexDigitsRevAux : Nat → Nat → List Nat
  | 0, n => [n]
  | fuel + 1, n => if n < 16 then [n] else n % 16 :: hexDigitsRevAux fuel (n / 16)

/-- Little-endian base-16 digits of n. -/
def hexDigitsRev (n : Nat) : List Nat := hexDigitsRevAux n n

/-- Value of a little-endian digit list in base b. -/
def digitsVal (b : Nat) : List Nat → Nat
  | [] => 0
  | d :: ds => d + b * digitsVal b ds

/-- Model of Python str(n) for a non-negative int. -/
def pyStrNat (n : Nat) : String :=
  String.mk ((decDigitsRev n).reverse.map decDigitChar)

/-- Model of the Python format expression with spec "#06x" used by
discover_usb: "0x" then the lowercase hex digits zero-padded to four. -/
def pyHexFormat06 (n : Nat) : String :=
  let ds := (hexDigitsRev n).reverse.map hexDigitChar
  String.mk ('0' :: 'x' :: (List.replicate (4 - ds.length) '0' ++ ds))

/-- Accumulating numeral scanner shared by the int(s, base) models; fails on
the first non-digit character. -/
def parseDigitsCore (digit : Char → Option Nat) (b : Nat) : Nat → List Char → Option Nat
  | acc, [] => some acc
  | acc, c :: cs =>
    match digit c with
    | some d => parseDigitsCore digit b (b * acc + d) cs
    | none => none

/-- Model of Python int(s) on its decimal-digit core. -/
def pyIntDecL (l : List Char) : Option Nat :=
  if l.isEmpty then none else parseDigitsCore decDigitVal 10 0 l

/-- Drops a leading 0x or 0X, as Python int(s, 16) accepts. -/
def hexDropPrefix0x (l : List Char) : List Char :=
  match l with
  | '0' :: c :: rest => if c = 'x' ∨ c = 'X' then rest else '0' :: c :: rest
  | _ => l

/-- Model of Python int(s, 16) on its hex-numeral core. -/
def pyIntHexL (l : List Char) : Option Nat :=
  let l' := hexDropPrefix0x l
  if l'.isEmpty then none else parseDigitsCore hexDigitVal 16 0 l'

/-! ## discovery.py: printer ids -/

/-- Default ESC/POS network port (discovery.py, ESCPOS_NETWORK_PORT). -/
def ESCPOS_NETWORK_PORT : Nat := 9100

/-- Connection parameters as returned by parse_printer_id: the dict
{'vendor_id':…,'product_id':…}, {'host':…,'port':…} or {'address':…}. -/
inductive ConnParams where
  | usb (vendor_id product_id : Nat)
  | network (host : String) (port : Nat)
  | bluetooth (address : String)
deriving DecidableEq

/-- Embedding of discovery.parse_printer_id.  Python raises ValueError on a
malformed id (unknown type tag, a usb rest that does not split into exactly
two fields, or an unparsable numeral); the embedding returns none there.

Source:
    parts = printer_id.split(':', 1)
    ptype = parts[0]
    rest = parts[1] if len(parts) > 1 else ''
    if ptype == 'usb':
        vid, pid = rest.split(':')
        return 'usb', {'vendor_id': int(vid, 16), 'product_id': int(pid, 16)}
    elif ptype == 'network':
        host_port = rest.rsplit(':', 1)
        host = host_port[0]
        port = int(host_port[1]) if len(host_port) > 1 else ESCPOS_NETWORK_PORT
        return 'network', {'host': host, 'port': port}
    elif ptype == 'bluetooth':
        return 'bluetooth', {'address': rest}
    else:
        raise ValueError(...)

The if/elif chain on the type tag, with ptype = parts[0] and rest bound as
above, is split out as parsePidBranch. -/
def parsePidBranch (ptype rest : List Char) : Option (String × ConnParams) :=
  if ptype = "usb".data then
    match pySplitAllAux ':' rest with
    | [vid, pid] =>
      match pyIntHexL vid, pyIntHexL pid with
      | some v, some p => some ("usb", ConnParams.usb v p)
      | _, _ => none
    | _ => none
  else if ptype = "network".data then
    match pyRSplitOnceAux ':' rest with
    | some (host, portStr) =>
      match pyIntDecL portStr with
      | some p => some ("network", ConnParams.network (String.mk host) p)
      | none => none
    | none => some ("network", ConnParams.network (String.mk rest) ESCPOS_NETWORK_PORT)
  else if ptype = "bluetooth".data then
    some ("bluetooth", ConnParams.bluetooth (String.mk rest))
  else none

def parse_printer_id (printer_id : String) : Option (String × ConnParams) :=
  match pySplitOnceAux ':' printer_id.data with
  | some (ptype, rest) => parsePidBranch ptype rest
  | none => parsePidBranch printer_id.data []

/-- USB printer id as produced by discover_usb:
f"usb:{vendor_id:#06x}:{product_id:#06x}". -/
def usb_printer_id (vendor_id product_id : Nat) : String :=
  String.mk ("usb:".data ++ (pyHexFormat06 vendor_id).data
    ++ ":".data ++ (pyHexFormat06 product_id).data)

/-- Network printer id as produced by discover_network and the mDNS sweep:
f"network:{ip}:{port}". -/
def network_printer_id (host : String) (port : Nat) : String :=
  String.mk ("network:".data ++ host.data ++ ":".data ++ (pyStrNat port).data)

/-- Bluetooth printer id as produced by discover_bluetooth:
f"bluetooth:{d.address}". -/
def bluetooth_printer_id (address : String) : String :=
  String.mk ("bluetooth:".data ++ address.data)

/-- Re-serialization of parsed connection parameters in the discovery
formats; this is the second leg of the round-trip of claim C1. -/
def serialize_params : ConnParams → String
  | ConnParams.usb v p => usb_printer_id v p
  | ConnParams.network h pt => network_printer_id h pt
  | ConnParams.bluetooth a => bluetooth_printer_id a

/-! ## Splitting and numeral lemmas -/

theorem pySplitOnceAux_append (sep : Char) (l1 l2 : List Char) (h : sep ∉ l1) :
    pySplitOnceAux sep (l1 ++ sep :: l2) = some (l1, l2) := by
  induction l1 with
  | nil => simp [pySplitOnceAux]
  | cons c cs ih =>
    simp only [List.mem_cons, not_or] at h
    have hc : ¬ c = sep := fun hc => h.1 hc.symm
    simp [pySplitOnceAux, hc, ih h.2, List.append_eq]

theorem pyRSplitOnceAux_not_mem (sep : Char) (l : List Char) (h : sep ∉ l) :
    pyRSplitOnceAux sep l = none := by
  induction l with
  | nil => rfl
  | cons c cs ih =>
    simp only [List.mem_cons, not_or] at h
    have hc : ¬ c = sep := fun hc => h.1 hc.symm
    simp [pyRSplitOnceAux, ih h.2, hc]

theorem pyRSplitOnceAux_append (sep : Char) (l1 l2 : List Char) (h : sep ∉ l2) :
    pyRSplitOnceAux sep (l1 ++ sep :: l2) = some (l1, l2) := by
  induction l1 with
  | nil => simp [pyRSplitOnceAux, pyRSplitOnceAux_not_mem sep l2 h]
  | cons c cs ih =>
    simp [pyRSplitOnceAux, ih, List.append_eq]

theorem pySplitAllAux_not_mem (sep : Char) (l : List Char) (h : sep ∉ l) :
    pySplitAllAux sep l = [l] := by
  induction l with
  | nil => rfl
  | cons c cs ih =>
    simp only [List.mem_cons, not_or] at h
    have hc : ¬ c = sep := fun hc => h.1 hc.symm
    simp [pySplitAllAux, ih h.2, hc]

theorem pySplitAllAux_append (sep : Char) (l1 l2 : List Char) (h : sep ∉ l1) :
    pySplitAllAux sep (l1 ++ sep :: l2) = l1 :: pySplitAllAux sep l2 := by
  induction l1 with
  | nil => simp [pySplitAllAux]
  | cons c cs ih =>
    simp only [List.mem_cons, not_or] at h
    have hc : ¬ c = sep := fun hc => h.1 hc.symm
    simp [pySplitAllAux, ih h.2, hc, List.append_eq]

theorem digitsVal_decDigitsRevAux (fuel : Nat) :
    ∀ n, digitsVal 10 (decDigitsRevAux fuel n) = n := by
  induction fuel with
  | zero => intro n; simp [decDigitsRevAux, digitsVal]
  | succ f ih =>
    intro n
    rw [decDigitsRevAux]
    split
    · simp [digitsVal]
    · simp [digitsVal, ih]; omega

theorem digitsVal_hexDigitsRevAux (fuel : Nat) :
    ∀ n, digitsVal 16 (hexDigitsRevAux fuel n) = n := by
  induction fuel with
  | zero => intro n; simp [hexDigitsRevAux, digitsVal]
  | succ f ih =>
    intro n
    rw [hexDigitsRevAux]
    split
    · simp [digitsVal]
    · simp [digitsVal, ih]; omega

theorem decDigitsRevAux_lt (fuel : Nat) : ∀ n, n ≤ fuel ∨ n < 10 →
    ∀ d ∈ decDigitsRevAux fuel n, d < 10 := by
  induction fuel with
  | zero =>
    intro n h d hd
    rw [decDigitsRevAux] at hd
    simp at hd
    omega
  | succ f ih =>
    intro n h d hd
    rw [decDigitsRevAux] at hd
    by_cases h10 : n < 10
    · rw [if_pos h10] at hd; simp at hd; omega
    · rw [if_neg h10] at hd
      rcases List.mem_cons.mp hd with h1 | h2
      · omega
      · have hdiv : n / 10 < n := Nat.div_lt_self (by omega) (by omega)
        exact ih (n / 10) (Or.inl (by omega)) d h2

theorem hexDigitsRevAux_lt (fuel : Nat) : ∀ n, n ≤ fuel ∨ n < 16 →
    ∀ d ∈ hexDigitsRevAux fuel n, d < 16 := by
  induction fuel with
  | zero =>
    intro n h d hd
    rw [hexDigitsRevAux] at hd
    simp at hd
    omega
  | succ f ih =>
    intro n h d hd
    rw [hexDigitsRevAux] at hd
    by_cases h16 : n < 16
    · rw [if_pos h16] at hd; simp at hd; omega
    · rw [if_neg h16] at hd
      rcases List.mem_cons.mp hd with h1 | h2
      · omega
      · have hdiv : n / 16 < n := Nat.div_lt_self (by omega) (by omega)
        exact ih (n / 16) (Or.inl (by omega)) d h2

theorem decDigitsRev_lt (n : Nat) : ∀ d ∈ decDigitsRev n, d < 10 :=
  decDigitsRevAux_lt n n (Or.inl le_rfl)

theorem hexDigitsRev_lt (n : Nat) : ∀ d ∈ hexDigitsRev n, d < 16 :=
  hexDigitsRevAux_lt n n (Or.inl le_rfl)

theorem decDigitsRevAux_ne_nil (fuel n : Nat) : decDigitsRevAux fuel n ≠ [] := by
  cases fuel
  · simp [decDigitsRevAux]
  · simp only [decDigitsRevAux]
    split <;> simp

theorem hexDigitsRevAux_ne_nil (fuel n : Nat) : hexDigitsRevAux fuel n ≠ [] := by
  cases fuel
  · simp [hexDigitsRevAux]
  · simp only [hexDigitsRevAux]
    split <;> simp

theorem decDigitVal_decDigitChar (d : Nat) (h : d < 10) :
    decDigitVal (decDigitChar d) = some d := by
  interval_cases d <;> decide

theorem hexDigitVal_hexDigitChar (d : Nat) (h : d < 16) :
    hexDigitVal (hexDigitChar d) = some d := by
  interval_cases d <;> decide

theorem decDigitChar_ne_colon (d : Nat) (h : d < 10) : decDigitChar d ≠ ':' := by
  interval_cases d <;> decide

theorem hexDigitChar_ne_colon (d : Nat) (h : d < 16) : hexDigitChar d ≠ ':' := by
  interval_cases d <;> decide

theorem parseDigitsCore_map (digit : Char → Option Nat) (chr : Nat → Char) (b : Nat)
    (ds : List Nat) (hd : ∀ d ∈ ds, digit (chr d) = some d) : ∀ acc,
    parseDigitsCore digit b acc (ds.map chr) = some (ds.foldl (fun a d => b * a + d) acc) := by
  induction ds with
  | nil => intro acc; rfl
  | cons d ds ih =>
    intro acc
    simp only [List.map_cons, parseDigitsCore, hd d (List.mem_cons_self d ds)]
    exact ih (fun x hx => hd x (List.mem_cons_of_mem d hx)) _

theorem foldl_reverse_digitsVal (b : Nat) (ds : List Nat) :
    ds.reverse.foldl (fun a d => b * a + d) 0 = digitsVal b ds := by
  induction ds with
  | nil => rfl
  | cons d ds ih =>
    simp only [List.reverse_cons, List.foldl_append, ih, digitsVal, List.foldl_cons,
      List.foldl_nil]
    exact Nat.add_comm _ _

theorem parseDigitsCore_replicate_zero (digit : Char → Option Nat) (b : Nat) (k : Nat)
    (z : Char) (hz : digit z = some 0) (l : List Char) :
    parseDigitsCore digit b 0 (List.replicate k z ++ l) = parseDigitsCore digit b 0 l := by
  induction k with
  | zero => rfl
  | succ m ih =>
    simp only [List.replicate_succ, List.cons_append, parseDigitsCore, hz, Nat.mul_zero,
      Nat.zero_add, List.append_eq, ih]

theorem pyIntDecL_pyStrNat (n : Nat) : pyIntDecL (pyStrNat n).data = some n := by
  unfold pyStrNat pyIntDecL
  have hne : ((decDigitsRev n).reverse.map decDigitChar) ≠ [] := by
    simp [decDigitsRev, decDigitsRevAux_ne_nil]
  rw [if_neg (by simpa [List.isEmpty_iff] using hne)]
  rw [parseDigitsCore_map decDigitVal decDigitChar 10 (decDigitsRev n).reverse
    (fun d hd => decDigitVal_decDigitChar d (decDigitsRev_lt n d (List.mem_reverse.mp hd))) 0]
  rw [foldl_reverse_digitsVal, decDigitsRev, digitsVal_decDigitsRevAux]

theorem pyIntHexL_pyHexFormat06 (n : Nat) : pyIntHexL (pyHexFormat06 n).data = some n := by
  unfold pyHexFormat06 pyIntHexL
  simp only [hexDropPrefix0x, eq_self_iff_true, true_or, if_true]
  rw [if_neg (by simp [List.isEmpty_iff, hexDigitsRev, hexDigitsRevAux_ne_nil])]
  rw [parseDigitsCore_replicate_zero hexDigitVal 16 _ '0' (by decide) _]
  rw [parseDigitsCore_map hexDigitVal hexDigitChar 16 (hexDigitsRev n).reverse
    (fun d hd => hexDigitVal_hexDigitChar d (hexDigitsRev_lt n d (List.mem_reverse.mp hd))) 0]
  rw [foldl_reverse_digitsVal, hexDigitsRev, digitsVal_hexDigitsRevAux]

theorem colon_not_mem_pyStrNat (n : Nat) : ':' ∉ (pyStrNat n).data := by
  simp only [pyStrNat]
  intro hmem
  simp only [List.mem_map, List.mem_reverse] at hmem
  obtain ⟨d, hd, he⟩ := hmem
  exact decDigitChar_ne_colon d (decDigitsRev_lt n d hd) he

theorem colon_not_mem_pyHexFormat06 (n : Nat) : ':' ∉ (pyHexFormat06 n).data := by
  simp only [pyHexFormat06]
  intro hmem
  simp only [List.mem_cons, List.mem_append, List.mem_replicate, List.mem_map,
    List.mem_reverse] at hmem
  rcases hmem with h | h | h | h
  · exact absurd h (by decide)
  · exact absurd h (by decide)
  · exact absurd h.2 (by decide)
  · obtain ⟨d, hd, he⟩ := h
    exact hexDigitChar_ne_colon d (hexDigitsRev_lt n d hd) he

/-! ## Parsing the three produced id forms -/

theorem parse_usb_printer_id (v p : Nat) :
    parse_printer_id (usb_printer_id v p) = some ("usb", ConnParams.usb v p) := by
  have e : (usb_printer_id v p).data
      = "usb".data ++ ':' :: ((pyHexFormat06 v).data ++ ':' :: (pyHexFormat06 p).data) := by
    show "usb:".data ++ (pyHexFormat06 v).data ++ ":".data ++ (pyHexFormat06 p).data = _
    simp [List.append_assoc]
  unfold parse_printer_id
  rw [e, pySplitOnceAux_append ':' _ _ (by decide)]
  show parsePidBranch "usb".data _ = _
  unfold parsePidBranch
  rw [if_pos rfl]
  rw [pySplitAllAux_append ':' _ _ (colon_not_mem_pyHexFormat06 v),
    pySplitAllAux_not_mem ':' _ (colon_not_mem_pyHexFormat06 p)]
  simp only [pyIntHexL_pyHexFormat06]

theorem parse_network_printer_id (host : String) (port : Nat) :
    parse_printer_id (network_printer_id host port)
      = some ("network", ConnParams.network host port) := by
  have e : (network_printer_id host port).data
      = "network".data ++ ':' :: (host.data ++ ':' :: (pyStrNat port).data) := by
    show "network:".data ++ host.data ++ ":".data ++ (pyStrNat port).data = _
    simp [List.append_assoc]
  unfold parse_printer_id
  rw [e, pySplitOnceAux_append ':' _ _ (by decide)]
  show parsePidBranch "network".data _ = _
  unfold parsePidBranch
  rw [if_neg (by decide), if_pos rfl]
  rw [pyRSplitOnceAux_append ':' _ _ (colon_not_mem_pyStrNat port)]
  simp only [pyIntDecL_pyStrNat]

theorem parse_bluetooth_printer_id (address : String) :
    parse_printer_id (bluetooth_printer_id address)
      = some ("bluetooth", ConnParams.bluetooth address) := by
  have e : (bluetooth_printer_id address).data
      = "bluetooth".data ++ ':' :: address.data := by
    show "bluetooth:".data ++ address.data = _
    simp
  unfold parse_printer_id
  rw [e, pySplitOnceAux_append ':' _ _ (by decide)]
  show parsePidBranch "bluetooth".data _ = _
  unfold parsePidBranch
  rw [if_neg (by decide), if_neg (by decide), if_pos rfl]

/-- C1: every printer id produced by the discovery functions (usb ids
usb:hex-vendor:hex-product, network ids network:host:port, bluetooth ids
bluetooth:address) parses back to its transport and connection parameters,
and re-serializing those in the discovery format yields the identical
string: the round-trip is lossless. -/
theorem C1_printer_id_roundtrip (v p port : Nat) (host address : String) :
    (parse_printer_id (usb_printer_id v p) = some ("usb", ConnParams.usb v p)
      ∧ Option.map (fun tp => serialize_params tp.2) (parse_printer_id (usb_printer_id v p))
          = some (usb_printer_id v p))
    ∧ (parse_printer_id (network_printer_id host port)
          = some ("network", ConnParams.network host port)
      ∧ Option.map (fun tp => serialize_params tp.2)
            (parse_printer_id (network_printer_id host port))
          = some (network_printer_id host port))
    ∧ (parse_printer_id (bluetooth_printer_id address)
          = some ("bluetooth", ConnParams.bluetooth address)
      ∧ Option.map (fun tp => serialize_params tp.2)
            (parse_printer_id (bluetooth_printer_id address))
          = some (bluetooth_printer_id address)) := by
  refine ⟨⟨parse_usb_printer_id v p, ?_⟩,
    ⟨parse_network_printer_id host port, ?_⟩,
    ⟨parse_bluetooth_printer_id address, ?_⟩⟩
  · rw [parse_usb_printer_id]; rfl
  · rw [parse_network_printer_id]; rfl
  · rw [parse_bluetooth_printer_id]; rfl

/-- C10: a printer id of the form network:host whose host contains no colon
and which has no port component is accepted by parse_printer_id, returning
transport network with the port defaulting to 9100, rather than being
rejected for omitting the port component of the published grammar. -/
theorem C10_network_id_port_defaults (host : String) (h : ':' ∉ host.data) :
    parse_printer_id ("network:" ++ host)
      = some ("network", ConnParams.network host ESCPOS_NETWORK_PORT) := by
  have e : ("network:" ++ host).data = "network".data ++ ':' :: host.data := by
    show "network:".data ++ host.data = _
    simp
  unfold parse_printer_id
  rw [e, pySplitOnceAux_append ':' _ _ (by decide)]
  show parsePidBranch "network".data _ = _
  unfold parsePidBranch
  rw [if_neg (by decide), if_pos rfl]
  rw [pyRSplitOnceAux_not_mem ':' _ h]

theorem C10_network_id_port_defaults_witness :
    (':' ∉ "192.168.1.50".data)
      ∧ parse_printer_id ("network:" ++ "192.168.1.50")
          = some ("network", ConnParams.network "192.168.1.50" ESCPOS_NETWORK_PORT) :=
  ⟨by decide, C10_network_id_port_defaults "192.168.1.50" (by decide)⟩

/-! ## scanner.py: barcode classification and the scan detector -/

/-- Python str.upper on one character, ASCII range (barcode input is ASCII). -/
def pyUpperChar (c : Char) : Char :=
  if 97 ≤ c.toNat ∧ c.toNat ≤ 122 then Char.ofNat (c.toNat - 32) else c

/-- Python value.isdigit(): non-empty and every character a digit (ASCII
model; the unicode digit classes never arise from a scanner). -/
def pyIsDigit (s : String) : Bool :=
  !s.data.isEmpty && s.data.all (fun c => 48 ≤ c.toNat && c.toNat ≤ 57)

/-- The CODE39 alphabet literal of _detect_barcode_type. -/
def CODE39_CHARS : List Char := "0123456789ABCDEFGHIJKLMNOPQRSTUVWXYZ-. $/+%".data

/-- The second test of _detect_barcode_type:
len(value) <= 43 and all(c in SET for c in value.upper()). -/
def code39Check (value : String) : Bool :=
  value.length ≤ 43 && (value.data.map pyUpperChar).all (fun c => CODE39_CHARS.contains c)

/-- Embedding of ScannerManager._detect_barcode_type.  In the source the
digit branch falls through to the CODE39 test when the length matches none
of 13/8/12/14, which is spelled out here on both paths. -/
def _detect_barcode_type (value : String) : String :=
  if pyIsDigit value then
    if value.length = 13 then "EAN13"
    else if value.length = 8 then "EAN8"
    else if value.length = 12 then "UPC-A"
    else if value.length = 14 then "GTIN-14"
    else if code39Check value then "CODE39" else "CODE128"
  else if code39Check value then "CODE39" else "CODE128"

/-- Python whitespace for str.strip (ASCII part). -/
def pyWhitespace (c : Char) : Bool :=
  c = ' ' || c = '\t' || c = '\n' || c = '\r' || c.toNat = 11 || c.toNat = 12

/-- Model of Python str.strip() with no argument. -/
def pyStrip (s : String) : String :=
  String.mk (((s.data.dropWhile pyWhitespace).reverse.dropWhile pyWhitespace).reverse)

/-- The scan detector state: self._buffer and self._last_keystroke_time.
Timestamps are modelled as integers; only their differences are compared
against the timeout, so the unit is irrelevant. -/
structure ScanState where
  buffer : String
  last_keystroke_time : Int
deriving DecidableEq

/-- The part of ScannerManager._on_char after the buffer-reset check, acting
on the possibly reset buffer (the callback invocation is the returned
option). -/
def onCharCore (buf : String) (char : Char) (now : Int) :
    ScanState × Option (String × String) :=
  if char = '\n' ∨ char = '\r' then
    if 4 ≤ buf.length then
      let barcode := pyStrip buf
      (⟨"", now⟩, some (barcode, _detect_barcode_type barcode))
    else (⟨"", now⟩, none)
  else (⟨buf.push char, now⟩, none)

/-- Embedding of ScannerManager._on_char: reset the buffer when it is
non-empty and more than the timeout elapsed since the last keystroke, set
self._last_keystroke_time = now, then process the character. -/
def _on_char (timeout : Int) (st : ScanState) (char : Char) (now : Int) :
    ScanState × Option (String × String) :=
  onCharCore
    (if st.buffer ≠ "" ∧ now - st.last_keystroke_time > timeout then "" else st.buffer)
    char now

theorem onCharCore_last (buf : String) (char : Char) (now : Int) :
    (onCharCore buf char now).1.last_keystroke_time = now := by
  unfold onCharCore
  split
  · split
    · rfl
    · rfl
  · rfl

/-- C2: the barcode classifier is a total function into the six kinds, with
digit strings of length 13/8/12/14 mapped to EAN13/EAN8/UPC-A/GTIN-14, the
remaining strings over the CODE39 alphabet (upper-cased, length at most 43)
to CODE39 and everything else to CODE128; in particular 5901234123457 is
EAN13 and AB-12.34 is CODE39. -/
theorem C2_classify_total (s : String) :
    (_detect_barcode_type s = "EAN13" ∨ _detect_barcode_type s = "EAN8"
      ∨ _detect_barcode_type s = "UPC-A" ∨ _detect_barcode_type s = "GTIN-14"
      ∨ _detect_barcode_type s = "CODE39" ∨ _detect_barcode_type s = "CODE128")
    ∧ (pyIsDigit s = true → s.length = 13 → _detect_barcode_type s = "EAN13")
    ∧ (pyIsDigit s = true → s.length = 8 → _detect_barcode_type s = "EAN8")
    ∧ (pyIsDigit s = true → s.length = 12 → _detect_barcode_type s = "UPC-A")
    ∧ (pyIsDigit s = true → s.length = 14 → _detect_barcode_type s = "GTIN-14")
    ∧ (¬(pyIsDigit s = true ∧ (s.length = 13 ∨ s.length = 8 ∨ s.length = 12 ∨ s.length = 14)) →
        (code39Check s = true → _detect_barcode_type s = "CODE39")
        ∧ (code39Check s = false → _detect_barcode_type s = "CODE128"))
    ∧ _detect_barcode_type "5901234123457" = "EAN13"
    ∧ _detect_barcode_type "AB-12.34" = "CODE39" := by
  refine ⟨?_, ?_, ?_, ?_, ?_, ?_, by decide, by decide⟩ <;>
    unfold _detect_barcode_type <;> split_ifs <;> simp_all

theorem C2_classify_total_witness :
    (pyIsDigit "5901234123457" = true ∧ ("5901234123457" : String).length = 13)
      ∧ _detect_barcode_type "5901234123457" = "EAN13" :=
  ⟨by decide, (C2_classify_total "5901234123457").2.1 (by decide) (by decide)⟩

/-- C6: on every call the detector stamps last_keystroke_time with now, and
when the buffer is non-empty and more than the timeout elapsed since the
previous keystroke the buffered characters are discarded before the new
character is processed: the call behaves exactly as if the buffer had been
empty, so pre-gap characters never merge into the post-gap scan. -/
theorem C6_gap_discards_buffer (timeout : Int) (st : ScanState) (char : Char) (now : Int) :
    ((_on_char timeout st char now).1.last_keystroke_time = now)
    ∧ (st.buffer ≠ "" → now - st.last_keystroke_time > timeout →
        _on_char timeout st char now
          = _on_char timeout ⟨"", st.last_keystroke_time⟩ char now) := by
  constructor
  · exact onCharCore_last _ _ _
  · intro h1 h2
    unfold _on_char
    rw [if_pos ⟨h1, h2⟩, if_neg (by simp)]

theorem C6_gap_discards_buffer_witness :
    (("abc" : String) ≠ "" ∧ (200 : Int) - 0 > 100)
      ∧ _on_char 100 ⟨"abc", 0⟩ 'x' 200 = _on_char 100 ⟨"", 0⟩ 'x' 200 :=
  ⟨by decide, (C6_gap_discards_buffer 100 ⟨"abc", 0⟩ 'x' 200).2 (by decide) (by decide)⟩

/-- C7: feeding a line terminator with fewer than four buffered characters
emits nothing and clears the buffer; with at least four buffered characters
(and no timeout gap, which would discard them first) it emits exactly one
result carrying the stripped buffer and its classification, then clears the
buffer. -/
theorem C7_terminator_behaviour (timeout : Int) (st : ScanState) (char : Char) (now : Int)
    (hterm : char = '\n' ∨ char = '\r') :
    (st.buffer.length < 4 → _on_char timeout st char now = (⟨"", now⟩, none))
    ∧ (4 ≤ st.buffer.length → now - st.last_keystroke_time ≤ timeout →
        _on_char timeout st char now
          = (⟨"", now⟩, some (pyStrip st.buffer, _detect_barcode_type (pyStrip st.buffer)))) := by
  constructor
  · intro hlen
    unfold _on_char onCharCore
    rw [if_pos hterm]
    split
    · rw [if_neg (by decide)]
    · rw [if_neg (by omega)]
  · intro hlen hgap
    unfold _on_char onCharCore
    have hbuf : ¬(st.buffer ≠ "" ∧ now - st.last_keystroke_time > timeout) := by
      intro hc
      omega
    rw [if_neg hbuf, if_pos hterm, if_pos hlen]

theorem C7_terminator_behaviour_witness :
    (('\n' = '\n' ∨ '\n' = '\r') ∧ 4 ≤ ("12345" : String).length
        ∧ (150 : Int) - 100 ≤ 100)
      ∧ _on_char 100 ⟨"12345", 100⟩ '\n' 150 = (⟨"", 150⟩, some ("12345", "CODE39")) :=
  ⟨⟨Or.inl rfl, by decide, by decide⟩,
    (C7_terminator_behaviour 100 ⟨"12345", 100⟩ '\n' 150 (Or.inl rfl)).2 (by decide) (by decide)⟩

/-! ## server.py and server_android.py: broadcast

The two broadcast functions are letter-for-letter identical apart from the
send method's name (ws.send_text vs ws.send).  One model covers both: the
connection type is abstract, and sendOk tells whether sending on a given
connection succeeds or raises. -/

/-- Outcome of a broadcast: which connections received the message, and the
registry contents afterwards (connections.difference_update(disconnected)). -/
structure BroadcastResult (Conn : Type) where
  delivered : List Conn
  remaining : List Conn
deriving DecidableEq

/-- The for-loop of broadcast: try each send, collecting the connections
whose send raised into the disconnected set.  Returns (delivered,
disconnected). -/
def broadcastLoop (sendOk : Conn → Bool) : List Conn → List Conn × List Conn
  | [] => ([], [])
  | ws :: rest =>
    let r := broadcastLoop sendOk rest
    if sendOk ws then (ws :: r.1, r.2) else (r.1, ws :: r.2)

/-- Embedding of broadcast (server.py 46-54, server_android.py 43-51). -/
def broadcast [DecidableEq Conn] (sendOk : Conn → Bool) (conns : List Conn) :
    BroadcastResult Conn :=
  let r := broadcastLoop sendOk conns
  ⟨r.1, conns.filter (fun c => !r.2.contains c)⟩

theorem broadcastLoop_eq (sendOk : Conn → Bool) (conns : List Conn) :
    broadcastLoop sendOk conns
      = (conns.filter (fun c => sendOk c), conns.filter (fun c => !sendOk c)) := by
  induction conns with
  | nil => rfl
  | cons ws rest ih =>
    by_cases h : sendOk ws <;> simp [broadcastLoop, ih, h]

/-- C4: broadcast delivers to every connection whose send succeeds — a dead
connection never suppresses delivery to the others — removes exactly the
failing connections from the registry, and keeps the healthy ones; with
three registered connections of which exactly number 2 is dead, connections
1 and 3 receive the event and exactly 2 is removed. -/
theorem C4_broadcast_partial_failure_isolation (conns : List Nat) (sendOk : Nat → Bool) :
    (∀ c ∈ conns, sendOk c = true → c ∈ (broadcast sendOk conns).delivered)
    ∧ (∀ c ∈ conns, sendOk c = false → c ∉ (broadcast sendOk conns).remaining)
    ∧ (∀ c ∈ conns, sendOk c = true → c ∈ (broadcast sendOk conns).remaining)
    ∧ broadcast (fun c => !(c == 2)) [1, 2, 3] = ⟨[1, 3], [1, 3]⟩ := by
  refine ⟨?_, ?_, ?_, by decide⟩ <;>
    · intro c hc hok
      simp [broadcast, broadcastLoop_eq, List.mem_filter, hc, hok]

theorem C4_broadcast_partial_failure_isolation_witness :
    (1 ∈ [1, 2, 3] ∧ (fun c => !(c == 2)) 1 = true)
      ∧ 1 ∈ (broadcast (fun c => !(c == 2)) [1, 2, 3]).delivered :=
  ⟨by decide,
    (C4_broadcast_partial_failure_isolation [1, 2, 3] (fun c => !(c == 2))).1
      1 (by decide) (by decide)⟩

/-! ## printer.py and drawer.py: connection lifecycle

print_document, test_print (printer.py) and open_drawer (drawer.py) share
one shape:

    printer = connect_printer(printer_id)
    try:
        <body: renderer / escpos writes / raw kick command>
    finally:
        try:
            printer.close()
        except Exception:
            pass

The embedding is a trace-and-exception monad: a computation appends the
hardware operations it performs to a trace and yields a result or the
exception it raised.  The bodies are external printer calls (out of scope
per the spec); each is modelled as one abstract operation whose outcome is
a parameter. -/

/-- Hardware operations visible on the trace. -/
inductive HwOp where
  | openConn | render | write | rawWrite | close
deriving DecidableEq

/-- A computation: consumes the trace so far, returns the extended trace
and either a value or the exception raised. -/
def HwM (α : Type) := List HwOp → List HwOp × Except String α

/-- Sequencing with Python exception propagation. -/
def hwBind (m : HwM α) (f : α → HwM β) : HwM β := fun t =>
  match m t with
  | (t1, Except.ok a) => f a t1
  | (t1, Except.error e) => (t1, Except.error e)

/-- A primitive hardware call: performs op, then returns r. -/
def hwPrim (op : HwOp) (r : Except String Unit) : HwM Unit := fun t => (t ++ [op], r)

/-- Python try/finally: the finalizer always runs; if it raises, its
exception replaces the body's outcome, otherwise the body's outcome
stands. -/
def pyTryFinally (body : HwM α) (fin : HwM Unit) : HwM α := fun t =>
  let r := body t
  let rf := fin r.1
  (rf.1, match rf.2 with
    | Except.error e => Except.error e
    | Except.ok _ => r.2)

/-- Python try/except Exception: pass — run the computation, swallow any
exception. -/
def pyTryExceptPass (b : HwM Unit) : HwM Unit := fun t => ((b t).1, Except.ok ())

/-- PrinterManager.print_document: connect, render the document (the
dispatch over document_type selects one of the external renderers, all of
which only call the printer object), then the guarded close. -/
def print_document (connectRes renderRes closeRes : Except String Unit) : HwM Unit :=
  hwBind (hwPrim HwOp.openConn connectRes) (fun _ =>
    pyTryFinally (hwPrim HwOp.render renderRes)
      (pyTryExceptPass (hwPrim HwOp.close closeRes)))

/-- PrinterManager.test_print: connect, write the test page, guarded
close. -/
def test_print (connectRes bodyRes closeRes : Except String Unit) : HwM Unit :=
  hwBind (hwPrim HwOp.openConn connectRes) (fun _ =>
    pyTryFinally (hwPrim HwOp.write bodyRes)
      (pyTryExceptPass (hwPrim HwOp.close closeRes)))

/-- drawer.open_drawer: connect, send the kick command via printer._raw,
guarded close. -/
def open_drawer (connectRes bodyRes closeRes : Except String Unit) : HwM Unit :=
  hwBind (hwPrim HwOp.openConn connectRes) (fun _ =>
    pyTryFinally (hwPrim HwOp.rawWrite bodyRes)
      (pyTryExceptPass (hwPrim HwOp.close closeRes)))

/-- C5: in each of print_document, test_print and open_drawer, once the
connection is acquired the trace ends with a close regardless of whether
the body returned or raised, and the outcome the caller observes is exactly
the body's outcome whatever the close attempt did: a close failure never
masks the result or the original exception. -/
theorem C5_connection_lifecycle (bodyRes closeRes : Except String Unit) :
    print_document (Except.ok ()) bodyRes closeRes []
        = ([HwOp.openConn, HwOp.render, HwOp.close], bodyRes)
    ∧ test_print (Except.ok ()) bodyRes closeRes []
        = ([HwOp.openConn, HwOp.write, HwOp.close], bodyRes)
    ∧ open_drawer (Except.ok ()) bodyRes closeRes []
        = ([HwOp.openConn, HwOp.rawWrite, HwOp.close], bodyRes) := by
  refine ⟨?_, ?_, ?_⟩ <;> cases bodyRes <;> cases closeRes <;> rfl

/-! ## protocol.py: JSON values, event builders, parse_message

JSON values as Python json.loads yields them.  An object is its key/value
list in insertion order; json.loads never produces duplicate keys, so
first-match lookup is dict lookup. -/

inductive JVal where
  | null
  | bool (b : Bool)
  | num (n : Int)
  | str (s : String)
  | arr (xs : List JVal)
  | obj (kvs : List (String × JVal))

/-- Python msg.get(k): the value at key k, none when absent. -/
def lookupKey (kvs : List (String × JVal)) (k : String) : Option JVal :=
  match kvs.find? (fun kv => kv.1 == k) with
  | some kv => some kv.2
  | none => none

/-- Python truthiness of a JSON value. -/
def pyTruthy : JVal → Bool
  | JVal.null => false
  | JVal.bool b => b
  | JVal.num n => !(n == 0)
  | JVal.str s => !(s == "")
  | JVal.arr xs => !xs.isEmpty
  | JVal.obj kvs => !kvs.isEmpty

/-- Python truthiness of msg.get(k) (None is falsy). -/
def pyTruthyOpt : Option JVal → Bool
  | none => false
  | some v => pyTruthy v

/-- Python str(n) for an int of either sign. -/
def pyStrInt (n : Int) : String :=
  if n < 0 then "-" ++ pyStrNat n.natAbs else pyStrNat n.natAbs

mutual

/-- Python repr of a JSON value (str quoting without escape handling, which
no claim exercises). -/
def pyReprJVal : JVal → String
  | JVal.null => "None"
  | JVal.bool true => "True"
  | JVal.bool false => "False"
  | JVal.num n => pyStrInt n
  | JVal.str s => "'" ++ s ++ "'"
  | JVal.arr xs => "[" ++ pyReprJValList xs ++ "]"
  | JVal.obj kvs => "\x7b" ++ pyReprJValObj kvs ++ "\x7d"

/-- Comma-separated reprs of list elements. -/
def pyReprJValList : List JVal → String
  | [] => ""
  | [x] => pyReprJVal x
  | x :: xs => pyReprJVal x ++ ", " ++ pyReprJValList xs

/-- Comma-separated reprs of dict items. -/
def pyReprJValObj : List (String × JVal) → String
  | [] => ""
  | [kv] => "'" ++ kv.1 ++ "': " ++ pyReprJVal kv.2
  | kv :: kvs => "'" ++ kv.1 ++ "': " ++ pyReprJVal kv.2 ++ ", " ++ pyReprJValObj kvs

end

/-- Python str(v): the string itself for a str, repr-like otherwise. -/
def pyStrOfVal (v : JVal) : String :=
  match v with
  | JVal.str s => s
  | v => pyReprJVal v

/-- Python str(msg.get('action')): "None" when the key is absent. -/
def pyStrOfActionOpt : Option JVal → String
  | none => "None"
  | some v => pyStrOfVal v

/-- protocol.error_event. -/
def error_event (message code : String) : List (String × JVal) :=
  [("event", JVal.str "error"), ("message", JVal.str message), ("code", JVal.str code)]

/-- protocol.print_complete_event.  The job_id parameter is annotated str in
the source, but the server passes through whatever truthy JSON value the
client supplied, so the model takes a JSON value. -/
def print_complete_event (job_id : JVal) : List (String × JVal) :=
  [("event", JVal.str "print_complete"), ("job_id", job_id)]

/-- protocol.print_error_event (same remark on job_id). -/
def print_error_event (job_id error : JVal) : List (String × JVal) :=
  [("event", JVal.str "print_error"), ("job_id", job_id), ("error", error)]

/-- What json.loads produced for the raw inbound text: a decode error (its
message) or a JSON value.  json.loads itself is the Python standard
library, outside the repository. -/
inductive LoadResult where
  | failure (errmsg : String)
  | value (v : JVal)

/-- Embedding of protocol.parse_message on the json.loads outcome: reject a
decode failure, a non-object value, and an object with neither an action
nor an event key; otherwise return the message dict.  The error branches
model the raised ValueError by its message. -/
def parse_message (r : LoadResult) : Except String (List (String × JVal)) :=
  match r with
  | LoadResult.failure e => Except.error ("Invalid JSON: " ++ e)
  | LoadResult.value v =>
    match v with
    | JVal.obj kvs =>
      if (lookupKey kvs "action").isNone ∧ (lookupKey kvs "event").isNone then
        Except.error "Message must have 'action' or 'event' key"
      else Except.ok kvs
    | _ => Except.error "Message must be a JSON object"

/-! ## server.py: the dispatcher (handle_message) and handle_print -/

/-- The seven recognized handlers of the action dispatch chain. -/
inductive HandlerCall where
  | get_status
  | discover_printers
  | print
  | open_drawer
  | test_print
  | send_notification
  | toggle_keyboard
deriving DecidableEq

/-- What the dispatcher did with one inbound message: replied directly with
an error event on the originating connection, or invoked a handler on the
parsed message. -/
inductive DispatchResult where
  | reply (event : List (String × JVal))
  | dispatched (h : HandlerCall) (msg : List (String × JVal))

/-- Python action == 'literal' where action = msg.get('action'): only a
string value can compare equal. -/
def pyEqStr (v : Option JVal) (s : String) : Bool :=
  match v with
  | some (JVal.str t) => t == s
  | _ => false

/-- The if/elif chain of server.handle_message on the parsed message:
action = msg.get('action'), then routing, with the unknown-action error
event as the final else. -/
def dispatchAction (msg : List (String × JVal)) : DispatchResult :=
  if pyEqStr (lookupKey msg "action") "get_status" then
    DispatchResult.dispatched HandlerCall.get_status msg
  else if pyEqStr (lookupKey msg "action") "discover_printers" then
    DispatchResult.dispatched HandlerCall.discover_printers msg
  else if pyEqStr (lookupKey msg "action") "print" then
    DispatchResult.dispatched HandlerCall.print msg
  else if pyEqStr (lookupKey msg "action") "open_drawer" then
    DispatchResult.dispatched HandlerCall.open_drawer msg
  else if pyEqStr (lookupKey msg "action") "test_print" then
    DispatchResult.dispatched HandlerCall.test_print msg
  else if pyEqStr (lookupKey msg "action") "send_notification" then
    DispatchResult.dispatched HandlerCall.send_notification msg
  else if pyEqStr (lookupKey msg "action") "toggle_keyboard" then
    DispatchResult.dispatched HandlerCall.toggle_keyboard msg
  else
    DispatchResult.reply
      (error_event ("Unknown action: " ++ pyStrOfActionOpt (lookupKey msg "action"))
        "unknown_action")

/-- Embedding of server.handle_message (and the identical dispatch chain of
server_android.handle_message): a ValueError from parse_message is answered
with an error event with code parse_error, otherwise the message goes to
the action dispatch chain.  The function is total: no inbound message
crashes the connection loop. -/
def handle_message (r : LoadResult) : DispatchResult :=
  match parse_message r with
  | Except.error e => DispatchResult.reply (error_event e "parse_error")
  | Except.ok msg => dispatchAction msg

/-- job_id = msg.get('job_id') or generate_job_id(): the client value when
truthy, else the freshly generated id gen. -/
def effective_job_id (gen : String) (msg : List (String × JVal)) : JVal :=
  match lookupKey msg "job_id" with
  | some v => if pyTruthy v then v else JVal.str gen
  | none => JVal.str gen

/-- Embedding of server.handle_print (and the identical print branch of
server_android.handle_message).  gen is the id generate_job_id would
return; printOutcome is the executor outcome of
printer_manager.print_document (none for success, some e for an exception
with str(e) = e).  Result: the events sent on the originating connection,
and whether the job was submitted to the executor. -/
def handle_print (gen : String) (printOutcome : Option String)
    (msg : List (String × JVal)) : List (List (String × JVal)) × Bool :=
  if pyTruthyOpt (lookupKey msg "printer_id") = false then
    ([print_error_event (effective_job_id gen msg) (JVal.str "No printer_id specified")],
      false)
  else
    match printOutcome with
    | none => ([print_complete_event (effective_job_id gen msg)], true)
    | some e => ([print_error_event (effective_job_id gen msg) (JVal.str e)], true)

/-- server.health_check, the GET /status route: a pure function of the
discovery cache and the scanner manager state (no hardware access, no job
state).  scanner_manager models "scanner_manager is not None and
scanner_manager.is_running" by an Option Bool. -/
def health_check (cached_printers : List JVal) (scanner_manager : Option Bool)
    (version : String) : List (String × JVal) :=
  [("status", JVal.str "ok"),
   ("version", JVal.str version),
   ("printers", JVal.num cached_printers.length),
   ("scanner", JVal.bool (match scanner_manager with | none => false | some r => r))]

/-- C3 counterexample: the print command with no printer_id (empty message,
generated job id job-1, executor would succeed) is answered with exactly the
print_error event, that event has no code field at all (its fields are
event, job_id, error), and the executor is not invoked.  This refutes the
claim that the event carries a code indicating the missing parameter. -/
theorem C3_counterexample_no_code_field :
    (handle_print "job-1" none []).1
        = [print_error_event (JVal.str "job-1") (JVal.str "No printer_id specified")]
      ∧ lookupKey (print_error_event (JVal.str "job-1") (JVal.str "No printer_id specified"))
          "code" = none
      ∧ (handle_print "job-1" none []).2 = false :=
  ⟨rfl, rfl, rfl⟩

/-- C3 amended: a print command whose message lacks printer_id is answered
with exactly one print_error event referencing the job id (the generated
one when the client omitted job_id) whose error message — not a code
field — indicates the missing parameter, and the executor is never
invoked. -/
theorem C3_print_missing_printer_id (gen : String) (printOutcome : Option String)
    (msg : List (String × JVal)) (h : lookupKey msg "printer_id" = none) :
    (handle_print gen printOutcome msg).1
        = [print_error_event (effective_job_id gen msg) (JVal.str "No printer_id specified")]
      ∧ (lookupKey msg "job_id" = none → effective_job_id gen msg = JVal.str gen)
      ∧ (handle_print gen printOutcome msg).2 = false := by
  refine ⟨?_, ?_, ?_⟩
  · simp [handle_print, h, pyTruthyOpt]
  · intro h2; simp [effective_job_id, h2]
  · simp [handle_print, h, pyTruthyOpt]

theorem C3_print_missing_printer_id_witness :
    (lookupKey [] "printer_id" = none)
      ∧ ((handle_print "J" none []).1
            = [print_error_event (effective_job_id "J" []) (JVal.str "No printer_id specified")]
          ∧ (lookupKey [] "job_id" = none → effective_job_id "J" [] = JVal.str "J")
          ∧ (handle_print "J" none []).2 = false) :=
  ⟨rfl, C3_print_missing_printer_id "J" none [] rfl⟩

theorem handle_message_parse_ok (r : LoadResult) (msg : List (String × JVal))
    (h : parse_message r = Except.ok msg) : handle_message r = dispatchAction msg := by
  unfold handle_message
  rw [h]

/-- C8: the dispatcher answers malformed JSON, a non-object body, and an
object lacking both action and event with a parse_error error event on the
originating connection; every message that passes parsing is either routed
to a handler or answered with an unknown-action error event, never ignored.
handle_message being a total function is the model of "never crashes the
connection loop". -/
theorem C8_dispatcher_handles_all_input (r : LoadResult) :
    (∀ e, r = LoadResult.failure e →
        handle_message r
          = DispatchResult.reply (error_event ("Invalid JSON: " ++ e) "parse_error"))
    ∧ (∀ v, r = LoadResult.value v → (∀ kvs, v ≠ JVal.obj kvs) →
        handle_message r
          = DispatchResult.reply (error_event "Message must be a JSON object" "parse_error"))
    ∧ (∀ kvs, r = LoadResult.value (JVal.obj kvs) → lookupKey kvs "action" = none →
        lookupKey kvs "event" = none →
        handle_message r
          = DispatchResult.reply
              (error_event "Message must have 'action' or 'event' key" "parse_error"))
    ∧ (∀ kvs, r = LoadResult.value (JVal.obj kvs) →
        (¬ lookupKey kvs "action" = none ∨ ¬ lookupKey kvs "event" = none) →
        ((∃ hc, handle_message r = DispatchResult.dispatched hc kvs)
          ∨ ∃ ev, handle_message r = DispatchResult.reply ev
              ∧ lookupKey ev "event" = some (JVal.str "error")
              ∧ lookupKey ev "code" = some (JVal.str "unknown_action"))) := by
  refine ⟨?_, ?_, ?_, ?_⟩
  · rintro e rfl; rfl
  · rintro v rfl hobj
    cases v
    case obj kvs => exact absurd rfl (hobj kvs)
    all_goals rfl
  · rintro kvs rfl ha he
    simp [handle_message, parse_message, ha, he]
  · rintro kvs rfl hae
    have hcond : ¬((lookupKey kvs "action").isNone ∧ (lookupKey kvs "event").isNone) := by
      rcases hae with h | h <;> simp [Option.isNone_iff_eq_none, h]
    have hok : parse_message (LoadResult.value (JVal.obj kvs)) = Except.ok kvs := by
      show (if (lookupKey kvs "action").isNone ∧ (lookupKey kvs "event").isNone then
          (Except.error "Message must have 'action' or 'event' key"
            : Except String (List (String × JVal)))
        else Except.ok kvs) = Except.ok kvs
      rw [if_neg hcond]
    rw [handle_message_parse_ok _ _ hok]
    unfold dispatchAction
    split_ifs <;>
      first
        | exact Or.inl ⟨_, rfl⟩
        | exact Or.inr ⟨_, rfl, rfl, rfl⟩

theorem C8_dispatcher_handles_all_input_witness :
    handle_message (LoadResult.failure "boom")
      = DispatchResult.reply (error_event ("Invalid JSON: " ++ "boom") "parse_error") :=
  (C8_dispatcher_handles_all_input (LoadResult.failure "boom")).1 "boom" rfl

/-- C9 counterexample: on a concrete cache of one printer with the scanner
running, the health probe's keys are status, version, printers, scanner; in
particular it has no printer_count and no scanner_active field, refuting
the claimed field names. -/
theorem C9_counterexample_field_names :
    ((health_check [JVal.obj []] (some true) "0.1.0").map Prod.fst
        = ["status", "version", "printers", "scanner"])
      ∧ lookupKey (health_check [JVal.obj []] (some true) "0.1.0") "printer_count" = none
      ∧ lookupKey (health_check [JVal.obj []] (some true) "0.1.0") "scanner_active" = none :=
  ⟨rfl, rfl, rfl⟩

/-- C9 amended: the health probe always returns an object with exactly the
fields status, version, printers and scanner — not printer_count and
scanner_active — where printers is the number of printers in the current
DiscoveryCache and scanner reflects whether the scanner listener is
running; it is a pure function of cache and listener state, with no
hardware access and no job semantics. -/
theorem C9_health_check_fields (cached : List JVal) (mgr : Option Bool) (version : String) :
    (health_check cached mgr version).map Prod.fst
        = ["status", "version", "printers", "scanner"]
      ∧ lookupKey (health_check cached mgr version) "status" = some (JVal.str "ok")
      ∧ lookupKey (health_check cached mgr version) "version" = some (JVal.str version)
      ∧ lookupKey (health_check cached mgr version) "printers"
          = some (JVal.num cached.length)
      ∧ lookupKey (health_check cached mgr version) "scanner"
          = some (JVal.bool (match mgr with | none => false | some r => r)) :=
  ⟨rfl, rfl, rfl, rfl, rfl⟩

end Bridge
